import Mathlib

/-!
Shallow embedding of the notebook
src/sagemaker-python-sdk/dgl_gcmc/mxnet_gcmc.ipynb (a linear pipeline:
resolve identity, build and push a Docker image to ECR, construct an MXNet
estimator, launch the training job).  Cells are embedded as pure functions
over an explicit run environment; the parts of the pipeline whose code lives
in the external SageMaker SDK (job-spec validation, submit/await) are
modelled from the spec and marked as such in their doc comments.
-/

namespace GcmcNotebook

/-! ### Shell cell (cell-6): build the image, create the ECR repository if
absent, tag and push. -/

namespace ShellCell

/-- Shell cell: docker_name=sagemaker-dgl-gcmc -/
def docker_name : String := "sagemaker-dgl-gcmc"

end ShellCell

/-- Shell cell: fullname is the string
account . dkr.ecr. region .amazonaws.com/ name :latest (built by variable
expansion in one assignment). -/
def fullname (account region name : String) : String :=
  account ++ ".dkr.ecr." ++ region ++ ".amazonaws.com/" ++ name ++ ":latest"

/-- The registry host part of the reference, as the spec names it. -/
def registry_host (region : String) : String :=
  "dkr.ecr." ++ region ++ ".amazonaws.com"

/-- Modelled from the spec: the ImageReference format
account_id . registry_host / repository_name : tag, used to compare the
code with the spec wording of claim C4. -/
def specImageReference (account region name tag : String) : String :=
  account ++ "." ++ registry_host region ++ "/" ++ name ++ ":" ++ tag

/-- Remote ECR registry state: the set of existing repository names. -/
abbrev Registry := List String

/-- aws ecr describe-repositories --repository-names name succeeds (exit 0)
exactly when the repository exists. -/
def describe_repositories (reg : Registry) (name : String) : Bool :=
  reg.contains name

/-- aws ecr create-repository --repository-name name adds the repository. -/
def create_repository (reg : Registry) (name : String) : Registry :=
  name :: reg

/-- The create-if-absent block of the shell cell: run describe-repositories,
and when its exit code is non-zero run create-repository.  Returns the new
registry state and whether create-repository was executed. -/
def createIfAbsent (reg : Registry) (name : String) : Registry × Bool :=
  if describe_repositories reg name then (reg, false)
  else (create_repository reg name, true)

/-- Outcome of one external command invocation. -/
inductive CmdOutcome
  | success
  | transientNetFailure
  | fatalFailure
deriving Repr, DecidableEq

/-- Environment of one notebook run: the identity values each of the two
cells resolves (the shell cell via aws sts / aws configure, the Python cell
via the boto session), the remote registry state, and the outcomes of the
docker build and docker push commands. -/
structure RunEnv where
  shellAccount : String
  shellRegion : String
  pyAccount : String
  pyRegion : String
  registry : Registry
  buildOutcome : CmdOutcome
  pushOutcome : CmdOutcome
deriving Repr, DecidableEq

/-- Observable result of the shell cell. -/
structure ShellRunResult where
  registry : Registry
  createRan : Bool
  buildAttempts : Nat
  pushAttempts : Nat
  pushedName : String
  exitSuccess : Bool
deriving Repr, DecidableEq

/-- The whole shell cell as a function of the run environment.  The cell has
no set -e and no loop: docker build runs once, docker push runs once, the
exit status of the cell is the exit status of its last command (docker
push). -/
def build_and_publish (env : RunEnv) : ShellRunResult :=
  let full := fullname env.shellAccount env.shellRegion ShellCell.docker_name
  let r := createIfAbsent env.registry ShellCell.docker_name
  { registry := r.1
    createRan := r.2
    buildAttempts := 1
    pushAttempts := 1
    pushedName := full
    exitSuccess := env.pushOutcome = CmdOutcome.success }

/-! ### Python cell (cell-8): resolve identity again, format the image
reference, construct the MXNet estimator. -/

namespace PyCell

/-- Python cell: docker_name = sagemaker-dgl-gcmc (an independent second
binding of the repository name). -/
def docker_name : String := "sagemaker-dgl-gcmc"

end PyCell

/-- Python cell: CODE_PATH -/
def CODE_PATH : String := "../dgl_gcmc"

/-- Python cell: CODE_ENTRY -/
def CODE_ENTRY : String := "train.py"

/-- Python cell: the image string built with str.format from the
account, region and docker_name of the Python cell. -/
def imageFormat (account region name : String) : String :=
  account ++ ".dkr.ecr." ++ region ++ ".amazonaws.com/" ++ name ++ ":latest"

/-- The image string passed to the estimator in a given run: it is computed
from the identity the Python cell itself resolves, not from the shell cell
output. -/
def estimatorImage (env : RunEnv) : String :=
  imageFormat env.pyAccount env.pyRegion PyCell.docker_name

/-- Python cell: params, the hyperparameter dictionary. -/
def params : List (String × String) :=
  [("data_name", "ml-1m"), ("save_dir", "/opt/ml/model/")]

/-- Python cell: task_tags. -/
def task_tags : List (String × String) := [("ML Task", "DGL")]

/-- The MXNet estimator as constructed in the Python cell: a record of the
keyword arguments passed to the constructor. -/
structure Estimator where
  entry_point : String
  source_dir : String
  role : String
  train_instance_count : Int
  train_instance_type : String
  image_name : String
  hyperparameters : List (String × String)
  tags : List (String × String)
deriving Repr, DecidableEq

/-- The estimator construction of cell-8, parametric in the ambient role and
in the image string computed just above it. -/
def mkEstimator (role image : String) : Estimator :=
  { entry_point := CODE_ENTRY
    source_dir := CODE_PATH
    role := role
    train_instance_count := 1
    train_instance_type := "ml.p3.2xlarge"
    image_name := image
    hyperparameters := params
    tags := task_tags }

/-- A submitted training-job request: the estimator configuration together
with the input data channels passed to fit. -/
structure TrainingJobRequest where
  jobEstimator : Estimator
  inputChannels : Option (List (String × String))
deriving Repr, DecidableEq

/-- estimator.fit(inputs): submits the job built from the estimator
configuration and the given input channels, touching neither. -/
def fit (est : Estimator) (inputs : Option (List (String × String))) :
    TrainingJobRequest :=
  { jobEstimator := est, inputChannels := inputs }

/-- Cell-10: estimator.fit() is called with no arguments, so no input data
channels are supplied. -/
def notebookFit (est : Estimator) : TrainingJobRequest := fit est none

/-! ### Event trace of one notebook run, for the temporal and invariant
claims.  Events appear in the textual order of the cells; the notebook is a
straight-line script with a single branch (the create-if-absent check). -/

/-- External calls made by the notebook, in program order. -/
inductive Ev
  | resolveIdentityShell
  | ecrLogin
  | dockerBuild
  | ecrDescribe
  | ecrCreate
  | dockerTag
  | dockerPush
  | resolveIdentityPy
  | constructEstimator
  | fitCall
deriving Repr, DecidableEq

/-- Pipeline stage of each event: 0 = resolver/image-builder shell cell,
1 = job-configuration Python cell, 2 = job launch. -/
def stageIdx : Ev → Nat
  | .resolveIdentityShell => 0
  | .ecrLogin => 0
  | .dockerBuild => 0
  | .ecrDescribe => 0
  | .ecrCreate => 0
  | .dockerTag => 0
  | .dockerPush => 0
  | .resolveIdentityPy => 1
  | .constructEstimator => 1
  | .fitCall => 2

/-- Whether an event resolves the caller identity (account and region). -/
def isIdentityResolution : Ev → Bool
  | .resolveIdentityShell => true
  | .resolveIdentityPy => true
  | _ => false

/-- Events of the shell cell, in order: resolve account and region, log in
to the base-image registry, docker build, log in to the destination
registry, describe-repositories, create-repository when absent, docker tag,
docker push. -/
def shellTrace (env : RunEnv) : List Ev :=
  [Ev.resolveIdentityShell, Ev.ecrLogin, Ev.dockerBuild, Ev.ecrLogin] ++
    (if describe_repositories env.registry ShellCell.docker_name then
      [Ev.ecrDescribe]
    else
      [Ev.ecrDescribe, Ev.ecrCreate]) ++
    [Ev.dockerTag, Ev.dockerPush]

/-- Events of the Python cell: resolve account and region again, construct
the estimator. -/
def pyTrace : List Ev := [Ev.resolveIdentityPy, Ev.constructEstimator]

/-- The whole notebook run: shell cell, Python cell, then fit. -/
def notebookTrace (env : RunEnv) : List Ev :=
  shellTrace env ++ pyTrace ++ [Ev.fitCall]

/-- Number of identity resolutions performed in one run. -/
def identityResolutionCount (env : RunEnv) : Nat :=
  (notebookTrace env).countP (fun e => isIdentityResolution e)

/-! ### Job Configuration Builder and Job Launcher, modelled from the spec.
The validation and submission logic lives in the external SageMaker SDK and
is not part of the repository source; only its call site is. -/

/-- A hyperparameter value as handed to the builder: a string, a number
(flattenable by printing), or a nested structure (not flattenable). -/
inductive HVal
  | str (s : String)
  | num (n : Int)
  | nested
deriving Repr, DecidableEq

/-- Flattening of one hyperparameter value to a string, when possible. -/
def flattenVal : HVal → Option String
  | .str s => some s
  | .num n => some (toString n)
  | .nested => none

/-- A hyperparameter mapping is flattenable when every value flattens. -/
def flattenable (hp : List (String × HVal)) : Bool :=
  hp.all (fun p => (flattenVal p.2).isSome)

/-- Flatten a hyperparameter mapping to string key/value pairs. -/
def flattenHp (hp : List (String × HVal)) : List (String × String) :=
  hp.filterMap (fun p => (flattenVal p.2).map (fun s => (p.1, s)))

/-- Validation errors of the Job Configuration Builder. -/
inductive ConfigError
  | invalidConfig
  | unsupportedComputeType
deriving Repr, DecidableEq

/-- Modelled from the spec: the recognized compute-type enum is not
enumerated in the source; it must contain the GPU shape the notebook uses
(ml.p3.2xlarge) and the GPU shape of the spec example scenario
(gpu-large). -/
def recognizedComputeTypes : List String := ["ml.p3.2xlarge", "gpu-large"]

/-- The job specification: a pure record of the builder inputs with the
hyperparameters flattened to strings. -/
structure JobSpec where
  entry_point : String
  source_bundle : String
  image : String
  compute_type : String
  instance_count : Int
  hyperparameters : List (String × String)
  tags : List (String × String)
  output_location : String
deriving Repr, DecidableEq

/-- Modelled from the spec: build_job_spec of the Job Configuration Builder
(realized inside the SDK estimator constructor, absent from the source).
Pure construction: validate instance_count at least 1 and hyperparameters
flattenable (else InvalidConfigError), validate the compute type is
recognized (else UnsupportedComputeTypeError), then copy the inputs into a
JobSpec unchanged. -/
def build_job_spec (entry_point source_bundle image compute_type : String)
    (instance_count : Int) (hyperparameters : List (String × HVal))
    (tags : List (String × String)) (output_location : String) :
    Except ConfigError JobSpec :=
  if instance_count < 1 then .error .invalidConfig
  else if ¬ flattenable hyperparameters then .error .invalidConfig
  else if ¬ recognizedComputeTypes.contains compute_type then
    .error .unsupportedComputeType
  else
    .ok { entry_point := entry_point
          source_bundle := source_bundle
          image := image
          compute_type := compute_type
          instance_count := instance_count
          hyperparameters := flattenHp hyperparameters
          tags := tags
          output_location := output_location }

/-- Modelled from the spec: the opaque handle returned by submit carries
what the remote service needs to run the job. -/
structure JobHandle where
  jobSpec : JobSpec
deriving Repr, DecidableEq

/-- Terminal and intermediate job states. -/
inductive JobStatus
  | Pending
  | Running
  | Succeeded
  | Failed
deriving Repr, DecidableEq

/-- Modelled from the spec: submit is a single non-blocking call returning a
handle. -/
def submit (spec : JobSpec) : JobHandle := ⟨spec⟩

/-- Modelled from the spec: the remote execution service, observed only
through the terminal status and output location of a handle. -/
structure ExecutionService where
  terminalStatus : JobHandle → JobStatus
  outputOf : JobHandle → String

/-- Result of awaiting a job. -/
structure JobResult where
  status : JobStatus
  output_location : String
deriving Repr, DecidableEq

/-- Modelled from the spec: await_completion blocks until the remote job is
terminal and reports its status and output location. -/
def await_completion (svc : ExecutionService) (h : JobHandle) : JobResult :=
  { status := svc.terminalStatus h, output_location := svc.outputOf h }

/-- Modelled from the spec: in the example end-to-end scenario the remote
service runs the job to success and persists artifacts at the declared
output location. -/
def scenarioService : ExecutionService :=
  { terminalStatus := fun _ => JobStatus.Succeeded
    outputOf := fun h => h.jobSpec.output_location }

/-- Cell-2: model_artifacts_location = s3:// bucket /artifacts. -/
def model_artifacts_location (bucket : String) : String :=
  "s3://" ++ bucket ++ "/artifacts"

/-! ### Helper lemmas -/

/-- A mapping whose values are already strings is flattenable. -/
theorem flattenable_map_str (hp : List (String × String)) :
    flattenable (hp.map (fun p => (p.1, HVal.str p.2))) = true := by
  induction hp with
  | nil => rfl
  | cons a t ih => simpa [flattenable, flattenVal] using ih

/-- Flattening a mapping of string values returns it unchanged. -/
theorem flattenHp_map_str (hp : List (String × String)) :
    flattenHp (hp.map (fun p => (p.1, HVal.str p.2))) = hp := by
  induction hp with
  | nil => rfl
  | cons a t ih => simp [flattenHp, flattenVal] at ih ⊢; exact ih

/-! ### Claim theorems -/

/-- C1: for every valid input tuple (instance_count at least 1, string
hyperparameter values, recognized compute type), build_job_spec returns a
JobSpec whose fields are exactly the inputs: a pure identity mapping plus
validation. -/
theorem build_job_spec_identity (ep sb img ct : String) (n : Int)
    (hp tg : List (String × String)) (out : String)
    (hn : 1 ≤ n) (hct : ct ∈ recognizedComputeTypes) :
    build_job_spec ep sb img ct n (hp.map (fun p => (p.1, HVal.str p.2))) tg out
      = Except.ok
          { entry_point := ep, source_bundle := sb, image := img,
            compute_type := ct, instance_count := n, hyperparameters := hp,
            tags := tg, output_location := out } := by
  simp [build_job_spec, flattenable_map_str, flattenHp_map_str, hct,
    show ¬ n < 1 by omega]

/-- Witness for C1 at the concrete inputs of the notebook. -/
theorem build_job_spec_identity_witness :
    build_job_spec "train.py" "../dgl_gcmc" "img" "ml.p3.2xlarge" 1
        ([("data_name", "ml-1m"), ("save_dir", "/opt/ml/model/")].map
          (fun p => (p.1, HVal.str p.2))) [("ML Task", "DGL")] "s3://b/artifacts"
      = Except.ok
          { entry_point := "train.py", source_bundle := "../dgl_gcmc",
            image := "img", compute_type := "ml.p3.2xlarge", instance_count := 1,
            hyperparameters := [("data_name", "ml-1m"), ("save_dir", "/opt/ml/model/")],
            tags := [("ML Task", "DGL")], output_location := "s3://b/artifacts" } :=
  build_job_spec_identity "train.py" "../dgl_gcmc" "img" "ml.p3.2xlarge" 1
    [("data_name", "ml-1m"), ("save_dir", "/opt/ml/model/")] [("ML Task", "DGL")]
    "s3://b/artifacts" (by decide) (by decide)

/-- C5: for instance_count zero or negative, build_job_spec fails with
InvalidConfigError and produces no JobSpec at all. -/
theorem build_job_spec_nonpositive_count (ep sb img ct : String) (n : Int)
    (hp : List (String × HVal)) (tg : List (String × String)) (out : String)
    (hn : n ≤ 0) :
    build_job_spec ep sb img ct n hp tg out
        = Except.error ConfigError.invalidConfig ∧
      ∀ spec : JobSpec, build_job_spec ep sb img ct n hp tg out ≠ Except.ok spec := by
  have h : build_job_spec ep sb img ct n hp tg out
      = Except.error ConfigError.invalidConfig := by
    unfold build_job_spec
    rw [if_pos (by omega)]
  exact ⟨h, fun spec hc => by simp [h] at hc⟩

/-- Witness for C5 at instance_count zero. -/
theorem build_job_spec_nonpositive_count_witness :
    build_job_spec "train.py" "../dgl_gcmc" "img" "ml.p3.2xlarge" 0
        [("data_name", HVal.str "ml-1m")] [] "s3://b/artifacts"
        = Except.error ConfigError.invalidConfig ∧
      ∀ spec : JobSpec,
        build_job_spec "train.py" "../dgl_gcmc" "img" "ml.p3.2xlarge" 0
          [("data_name", HVal.str "ml-1m")] [] "s3://b/artifacts"
          ≠ Except.ok spec :=
  build_job_spec_nonpositive_count "train.py" "../dgl_gcmc" "img" "ml.p3.2xlarge" 0
    [("data_name", HVal.str "ml-1m")] [] "s3://b/artifacts" (by decide)

/-- Reassociation helper for string concatenation. -/
theorem str_merge (s t x : String) : s ++ (t ++ x) = s ++ t ++ x :=
  (String.append_assoc s t x).symm

/-- C2: with the notebook inputs data_name ml-1m, save_dir /opt/ml/model/,
instance_count 1 and the GPU compute type, build_job_spec yields exactly the
two-entry hyperparameter mapping, and submit plus await_completion in the
scenario of the spec return status Succeeded with a non-empty output
location that begins with a URI scheme. -/
theorem scenario_end_to_end (bucket account region : String) :
    ∃ spec : JobSpec,
      build_job_spec "train.py" CODE_PATH
          (imageFormat account region PyCell.docker_name) "gpu-large" 1
          [("data_name", HVal.str "ml-1m"), ("save_dir", HVal.str "/opt/ml/model/")]
          task_tags (model_artifacts_location bucket) = Except.ok spec ∧
      spec.hyperparameters = [("data_name", "ml-1m"), ("save_dir", "/opt/ml/model/")] ∧
      (await_completion scenarioService (submit spec)).status = JobStatus.Succeeded ∧
      0 < (await_completion scenarioService (submit spec)).output_location.length ∧
      ∃ rest, (await_completion scenarioService (submit spec)).output_location
          = "s3://" ++ rest := by
  refine ⟨_, rfl, rfl, rfl, ?_, ?_⟩
  · show 0 < (model_artifacts_location bucket).length
    simp [model_artifacts_location, String.length_append]
    exact Or.inr (by decide)
  · exact ⟨bucket ++ "/artifacts",
      by simp [await_completion, scenarioService, submit, model_artifacts_location,
        String.append_assoc]⟩

/-- C3: running the shell cell a second time against the registry state the
first run left behind never executes create-repository and never fails at
the existence check: create-repository runs exactly when the repository is
absent, and the outcome of the run does not depend on it. -/
theorem create_if_absent_idempotent (env : RunEnv) :
    ((build_and_publish env).createRan
        = !(describe_repositories env.registry ShellCell.docker_name)) ∧
    ((build_and_publish
        { env with registry := (build_and_publish env).registry }).createRan
      = false) ∧
    ((build_and_publish
        { env with registry := (build_and_publish env).registry }).registry
      = (build_and_publish env).registry) ∧
    ((build_and_publish
        { env with registry := (build_and_publish env).registry }).exitSuccess
      = (build_and_publish env).exitSuccess) := by
  by_cases h : ShellCell.docker_name ∈ env.registry <;>
    simp [build_and_publish, createIfAbsent, describe_repositories,
      create_repository, h]

/-- C4: the shell cell pushes under and returns the fully-qualified
reference account_id . registry_host / repository_name : latest, with the
tag fixed to the literal latest. -/
theorem build_and_publish_reference (env : RunEnv) :
    (build_and_publish env).pushedName
      = specImageReference env.shellAccount env.shellRegion
          ShellCell.docker_name "latest" := by
  simp [build_and_publish, fullname, specImageReference, registry_host,
    String.append_assoc]
  rw [str_merge "." "dkr.ecr."]
  simp [String.append_assoc]

/-- C6 counterexample: in a run whose docker push fails with a transient
network error, the shell cell attempts the push exactly once — there is no
second attempt and hence no retry with backoff — and the failing status is
the cell outcome. -/
theorem push_transient_failure_not_retried :
    (build_and_publish
        { shellAccount := "123456789012", shellRegion := "us-west-2",
          pyAccount := "123456789012", pyRegion := "us-west-2",
          registry := ["sagemaker-dgl-gcmc"],
          buildOutcome := CmdOutcome.success,
          pushOutcome := CmdOutcome.transientNetFailure }).pushAttempts = 1 ∧
    ¬ 2 ≤ (build_and_publish
        { shellAccount := "123456789012", shellRegion := "us-west-2",
          pyAccount := "123456789012", pyRegion := "us-west-2",
          registry := ["sagemaker-dgl-gcmc"],
          buildOutcome := CmdOutcome.success,
          pushOutcome := CmdOutcome.transientNetFailure }).pushAttempts ∧
    (build_and_publish
        { shellAccount := "123456789012", shellRegion := "us-west-2",
          pyAccount := "123456789012", pyRegion := "us-west-2",
          registry := ["sagemaker-dgl-gcmc"],
          buildOutcome := CmdOutcome.success,
          pushOutcome := CmdOutcome.transientNetFailure }).exitSuccess = false := by
  decide

/-- C6 amended: no command of the shell cell is ever retried — docker build
and docker push each run exactly once in every environment — and the cell
outcome is exactly the outcome of the single push. -/
theorem push_and_build_never_retried (env : RunEnv) :
    (build_and_publish env).pushAttempts = 1 ∧
    (build_and_publish env).buildAttempts = 1 ∧
    ((build_and_publish env).exitSuccess = true
      ↔ env.pushOutcome = CmdOutcome.success) := by
  refine ⟨rfl, rfl, ?_⟩
  simp [build_and_publish]

/-- C7 counterexample: in a concrete run the notebook resolves the caller
identity twice (once in the shell cell, once in the Python cell), not
exactly once. -/
theorem identity_resolved_twice :
    identityResolutionCount
        { shellAccount := "123456789012", shellRegion := "us-west-2",
          pyAccount := "123456789012", pyRegion := "us-west-2",
          registry := ["sagemaker-dgl-gcmc"],
          buildOutcome := CmdOutcome.success,
          pushOutcome := CmdOutcome.success } = 2 ∧
    identityResolutionCount
        { shellAccount := "123456789012", shellRegion := "us-west-2",
          pyAccount := "123456789012", pyRegion := "us-west-2",
          registry := ["sagemaker-dgl-gcmc"],
          buildOutcome := CmdOutcome.success,
          pushOutcome := CmdOutcome.success } ≠ 1 := by
  decide

/-- C7 amended: every run resolves the identity exactly twice — the shell
cell resolves account and region, and the Python cell re-resolves them —
and each copy is then used read-only: the pushed name is a pure function of
the shell-resolved values and the estimator image is a pure function of the
Python-resolved values. -/
theorem identity_resolved_twice_read_only (env : RunEnv) :
    identityResolutionCount env = 2 ∧
    (build_and_publish env).pushedName
      = fullname env.shellAccount env.shellRegion ShellCell.docker_name ∧
    estimatorImage env
      = imageFormat env.pyAccount env.pyRegion PyCell.docker_name := by
  refine ⟨?_, rfl, rfl⟩
  unfold identityResolutionCount notebookTrace shellTrace pyTrace
  by_cases h : describe_repositories env.registry ShellCell.docker_name <;>
    simp [h, isIdentityResolution]

/-- C8 counterexample: in a run where the shell cell and the Python cell
resolve different accounts, the image passed to the estimator differs from
the name the image was pushed under, so the Job Configuration Builder does
not consume the image address produced by the push — it rebuilds one from
its own resolution. -/
theorem config_stage_not_consuming_push :
    (build_and_publish
        { shellAccount := "111111111111", shellRegion := "us-west-2",
          pyAccount := "222222222222", pyRegion := "us-west-2",
          registry := ["sagemaker-dgl-gcmc"],
          buildOutcome := CmdOutcome.success,
          pushOutcome := CmdOutcome.success }).pushedName
      ≠ estimatorImage
        { shellAccount := "111111111111", shellRegion := "us-west-2",
          pyAccount := "222222222222", pyRegion := "us-west-2",
          registry := ["sagemaker-dgl-gcmc"],
          buildOutcome := CmdOutcome.success,
          pushOutcome := CmdOutcome.success } := by
  decide

/-- C8 amended: the run is strictly sequential left-to-right — every event
of the shell cell precedes every event of the Python cell, which precede
the launch, so no stage feeds information backward — but the configuration
stage does not consume the pushed address: it independently reconstructs an
image address from its own identity resolution, which coincides with the
pushed name exactly when the two resolutions agree. -/
theorem pipeline_left_to_right (env : RunEnv)
    (ha : env.shellAccount = env.pyAccount)
    (hr : env.shellRegion = env.pyRegion) :
    List.Chain' (fun a b => stageIdx a ≤ stageIdx b) (notebookTrace env) ∧
    (build_and_publish env).pushedName = estimatorImage env := by
  constructor
  · unfold notebookTrace shellTrace pyTrace
    by_cases h : describe_repositories env.registry ShellCell.docker_name <;>
      simp [h] <;> decide
  · simp [build_and_publish, estimatorImage, fullname, imageFormat, ha, hr,
      ShellCell.docker_name, PyCell.docker_name]

/-- Witness for C8 at a concrete run with agreeing resolutions. -/
theorem pipeline_left_to_right_witness :
    List.Chain' (fun a b => stageIdx a ≤ stageIdx b)
      (notebookTrace
        { shellAccount := "123456789012", shellRegion := "us-west-2",
          pyAccount := "123456789012", pyRegion := "us-west-2",
          registry := ["sagemaker-dgl-gcmc"],
          buildOutcome := CmdOutcome.success,
          pushOutcome := CmdOutcome.success }) ∧
    (build_and_publish
        { shellAccount := "123456789012", shellRegion := "us-west-2",
          pyAccount := "123456789012", pyRegion := "us-west-2",
          registry := ["sagemaker-dgl-gcmc"],
          buildOutcome := CmdOutcome.success,
          pushOutcome := CmdOutcome.success }).pushedName
      = estimatorImage
        { shellAccount := "123456789012", shellRegion := "us-west-2",
          pyAccount := "123456789012", pyRegion := "us-west-2",
          registry := ["sagemaker-dgl-gcmc"],
          buildOutcome := CmdOutcome.success,
          pushOutcome := CmdOutcome.success } :=
  pipeline_left_to_right
    { shellAccount := "123456789012", shellRegion := "us-west-2",
      pyAccount := "123456789012", pyRegion := "us-west-2",
      registry := ["sagemaker-dgl-gcmc"],
      buildOutcome := CmdOutcome.success,
      pushOutcome := CmdOutcome.success } rfl rfl

/-- C9: the shell cell and the Python cell build the image reference
independently, and whenever their resolved accounts and regions agree the
estimator image equals the pushed fullname, both being
account .dkr.ecr. region .amazonaws.com/sagemaker-dgl-gcmc:latest, the
repository name being the literal sagemaker-dgl-gcmc in both cells. -/
theorem image_reference_agreement (env : RunEnv)
    (ha : env.shellAccount = env.pyAccount)
    (hr : env.shellRegion = env.pyRegion) :
    (build_and_publish env).pushedName = estimatorImage env ∧
    estimatorImage env
      = env.pyAccount ++ ".dkr.ecr." ++ env.pyRegion
          ++ ".amazonaws.com/sagemaker-dgl-gcmc:latest" ∧
    ShellCell.docker_name = "sagemaker-dgl-gcmc" ∧
    PyCell.docker_name = "sagemaker-dgl-gcmc" := by
  refine ⟨?_, ?_, rfl, rfl⟩
  · simp [build_and_publish, estimatorImage, fullname, imageFormat, ha, hr,
      ShellCell.docker_name, PyCell.docker_name]
  · simp [estimatorImage, imageFormat, PyCell.docker_name, String.append_assoc]

/-- Witness for C9 at a concrete run with agreeing resolutions. -/
theorem image_reference_agreement_witness :
    (build_and_publish
        { shellAccount := "123456789012", shellRegion := "us-west-2",
          pyAccount := "123456789012", pyRegion := "us-west-2",
          registry := [], buildOutcome := CmdOutcome.success,
          pushOutcome := CmdOutcome.success }).pushedName
      = estimatorImage
        { shellAccount := "123456789012", shellRegion := "us-west-2",
          pyAccount := "123456789012", pyRegion := "us-west-2",
          registry := [], buildOutcome := CmdOutcome.success,
          pushOutcome := CmdOutcome.success } ∧
    estimatorImage
        { shellAccount := "123456789012", shellRegion := "us-west-2",
          pyAccount := "123456789012", pyRegion := "us-west-2",
          registry := [], buildOutcome := CmdOutcome.success,
          pushOutcome := CmdOutcome.success }
      = "123456789012" ++ ".dkr.ecr." ++ "us-west-2"
          ++ ".amazonaws.com/sagemaker-dgl-gcmc:latest" ∧
    ShellCell.docker_name = "sagemaker-dgl-gcmc" ∧
    PyCell.docker_name = "sagemaker-dgl-gcmc" :=
  image_reference_agreement
    { shellAccount := "123456789012", shellRegion := "us-west-2",
      pyAccount := "123456789012", pyRegion := "us-west-2",
      registry := [], buildOutcome := CmdOutcome.success,
      pushOutcome := CmdOutcome.success } rfl rfl

/-- C10: the launch call supplies no input data channels — fit is invoked
with no arguments — and every job parameter of the submitted request is the
one fixed at estimator construction, unchanged by the launch. -/
theorem fit_without_channels (role image : String) :
    (notebookFit (mkEstimator role image)).inputChannels = none ∧
    (notebookFit (mkEstimator role image)).jobEstimator = mkEstimator role image ∧
    (mkEstimator role image).entry_point = CODE_ENTRY ∧
    (mkEstimator role image).source_dir = CODE_PATH ∧
    (mkEstimator role image).train_instance_count = 1 ∧
    (mkEstimator role image).train_instance_type = "ml.p3.2xlarge" ∧
    (mkEstimator role image).image_name = image ∧
    (mkEstimator role image).hyperparameters = params ∧
    (mkEstimator role image).tags = task_tags :=
  ⟨rfl, rfl, rfl, rfl, rfl, rfl, rfl, rfl, rfl⟩

end GcmcNotebook
